import Mathlib

/-!
Verification development for the attaqwa-paiement payment reconciliation core.

Shallow embedding of:
- `mergePaydunyaStatus` and `verifyIpnSignature` (src/unnamed/part_001, `src/lib/paydunya.ts`),
- the status pull route `GET /api/paydunya/status` with its helpers
  `confirmWithPayDunya` and `ensureEntitlementsGranted`
  (src/src/app/api/paydunya/status/route.ts),
- the admin force-complete entitlement upsert (src/unnamed/part_006).

External collaborators (the Node `crypto` HMAC functions, the JavaScript
`Number()` coercion used on provider-supplied amount strings, the network
fetch, and the SQL database) are modelled as explicit parameters /
explicit state: the database is a record of lists, one HTTP exchange with
the provider is a `ProviderResult` value, and `db.insert` side effects are
returned as lists of inserted rows.
-/

namespace Attaqwa

/-- Local payment status vocabulary, the closed three-value enumeration
PENDING / COMPLETED / FAILED used throughout the routes. -/
inductive PayStatus where
  | PENDING
  | COMPLETED
  | FAILED
deriving DecidableEq, Repr, Fintype

/-- Merge policy `mergePaydunyaStatus` from src/unnamed/part_001 lines 208-215:
priority COMPLETED > FAILED > PENDING. -/
def mergePaydunyaStatus (current incoming : PayStatus) : PayStatus :=
  if current = .COMPLETED ∨ incoming = .COMPLETED then .COMPLETED
  else if current = .FAILED ∨ incoming = .FAILED then .FAILED
  else .PENDING

/-- Does `needle` occur at the head of `hay`? (helper for JS `String.includes`). -/
def charsStartWith : List Char → List Char → Bool
  | [], _ => true
  | _ :: _, [] => false
  | n :: ns, h :: hs => n == h && charsStartWith ns hs

/-- Does `needle` occur anywhere in `hay`? (helper for JS `String.includes`). -/
def charsHaveSub (needle : List Char) : List Char → Bool
  | [] => needle.isEmpty
  | h :: hs => charsStartWith needle (h :: hs) || charsHaveSub needle hs

/-- Model of JavaScript `hay.includes(needle)`. -/
def strIncludes (hay needle : String) : Bool :=
  charsHaveSub needle.data hay.data

/-- Model of JavaScript `String.prototype.toUpperCase` (per-character,
sufficient for the ASCII vocabulary this code compares against). -/
def strUpper (s : String) : String :=
  String.mk (s.data.map Char.toUpper)

/-- Model of JavaScript `String.prototype.toLowerCase` (per-character). -/
def strLower (s : String) : String :=
  String.mk (s.data.map Char.toLower)

/-- A JavaScript number restricted to this domain: either a finite integral
amount or `NaN` (any non-finite / non-numeric result). -/
inductive JNum where
  | int (n : Int)
  | nan
deriving DecidableEq, Repr

/-- Encoding of an amount-carrying JSON field as the `typeof` checks of the route
see it: a JSON number, a JSON string, or anything else (absent / other type). -/
inductive AmountField where
  | num (n : Int)
  | str (s : String)
  | absent
deriving DecidableEq, Repr

/-- The fields of the PayDunya confirm response body that
`confirmWithPayDunya` reads, after its `typeof` guards: `none` stands for
"absent or not of the guarded type".  A JSON body that failed to parse is
represented by every field being `none`/`absent` (the code substitutes `{}`). -/
structure ConfirmData where
  response_code : Option String
  status : Option String
  invoiceStatus : Option String
  invoiceTotalAmount : AmountField
  amount : AmountField
  invoiceCurrency : Option String
  currency : Option String
deriving DecidableEq, Repr

/-- Selection `String(topStatus || invStatus || ...)` of the status string the
classifier actually looks at: the top-level `data.status` if it is a
non-empty string, else `data.invoice.status` if non-empty, else the empty
string. -/
def statusSelected (d : ConfirmData) : String :=
  let top := d.status.getD ""
  let inv := d.invoiceStatus.getD ""
  if top ≠ "" then top else if inv ≠ "" then inv else ""

/-- route.ts lines 112-115: uppercase the selected status text, then map to
the local vocabulary. -/
def classifyStatus (d : ConfirmData) : PayStatus :=
  let raw := strUpper (statusSelected d)
  if strIncludes raw "COMPLETE" || raw == "PAID" || raw == "SUCCESS" || raw == "COMPLETED" then
    .COMPLETED
  else if strIncludes raw "CANCEL" || strIncludes raw "FAIL" then .FAILED
  else .PENDING

/-- The `expect` argument of `confirmWithPayDunya` (route.ts line 90):
`uid` and `paymentId` are optional there. -/
structure Expect where
  amount : Int
  currency : String
  uid : Option String
  paymentId : Option Nat
deriving DecidableEq, Repr

/-- route.ts lines 119-121: `invoice.total_amount` if it is a number or a
string, otherwise the top-level `amount` field. -/
def rawAmountField (d : ConfirmData) : AmountField :=
  match d.invoiceTotalAmount with
  | .absent => d.amount
  | v => v

/-- route.ts line 126: `Number(rawAmount)` on strings, identity on numbers,
`NaN` otherwise.  `jsNumber` is the external JavaScript `Number()` coercion. -/
def receivedAmount (jsNumber : String → JNum) (d : ConfirmData) : JNum :=
  match rawAmountField d with
  | .num n => .int n
  | .str s => jsNumber s
  | .absent => .nan

/-- route.ts lines 122-127: `invoice.currency` if a string else top-level
`currency` if a string, upper-cased. -/
def receivedCurrency (d : ConfirmData) : Option String :=
  match d.invoiceCurrency with
  | some c => some (strUpper c)
  | none =>
    match d.currency with
    | some c => some (strUpper c)
    | none => none

/-- route.ts line 130: `Number.isFinite(receivedAmount) ? receivedAmount ===
expectedAmount : true`. -/
def amountOk (jsNumber : String → JNum) (d : ConfirmData) (expectedAmount : Int) : Bool :=
  match receivedAmount jsNumber d with
  | .int n => n == expectedAmount
  | .nan => true

/-- route.ts line 131: `receivedCurrency ? receivedCurrency ===
expectedCurrency : true` — note the empty string is falsy in JavaScript. -/
def currencyOk (d : ConfirmData) (expectedCurrency : String) : Bool :=
  match receivedCurrency d with
  | some c => if c = "" then true else c == strUpper expectedCurrency
  | none => true

/-- Structured payload of an audit-log insert performed by the modelled code. -/
inductive AuditMeta where
  | mismatch (provider token : String) (expectedAmount : Int) (receivedAmount : JNum)
      (expectedCurrency : String) (receivedCurrency : Option String) (whereTag : String)
  | granted (resources : List String) (paymentId : Nat) (via : String)
deriving DecidableEq, Repr

/-- One row inserted into `auditLogs`. -/
structure AuditLog where
  uid : String
  action : String
  meta : AuditMeta
deriving DecidableEq, Repr

/-- The three PayDunya environment keys read by `confirmWithPayDunya`
(route.ts line 93); `none` = unset environment variable. -/
structure ConfirmCfg where
  masterKey : Option String
  privateKey : Option String
  tokenKey : Option String
deriving DecidableEq, Repr

/-- route.ts line 94: `!PAYDUNYA_MASTER_KEY || !PAYDUNYA_PRIVATE_KEY ||
!PAYDUNYA_TOKEN` — an unset or empty key is falsy. -/
def ConfirmCfg.keysMissing (c : ConfirmCfg) : Bool :=
  c.masterKey.getD "" == "" || c.privateKey.getD "" == "" || c.tokenKey.getD "" == ""

/-- Outcome of the single `fetch` to the provider confirm endpoint:
either the fetch threw (network failure), or it returned with an HTTP
ok-flag and a parsed body (a body that failed JSON parsing is the
all-absent `ConfirmData`, since the code substitutes `{}`). -/
inductive ProviderResult where
  | unreachable
  | response (ok : Bool) (data : ConfirmData)
deriving DecidableEq, Repr

/-- Model of `confirmWithPayDunya` (route.ts lines 88-158).  Returns the value the
function returns (`none` = JS `null`) together with the list of audit-log
rows it inserted. -/
def confirmWithPayDunya (jsNumber : String → JNum) (cfg : ConfirmCfg)
    (pr : ProviderResult) (token : String) (expect : Option Expect) :
    Option PayStatus × List AuditLog :=
  if cfg.keysMissing then (none, [])
  else
    match pr with
    | .unreachable => (none, [])
    | .response ok d =>
      if !ok then (none, [])
      else if d.response_code ≠ some "00" then (none, [])
      else
        let mapped := classifyStatus d
        match expect with
        | some e =>
          if mapped = .COMPLETED then
            if !(amountOk jsNumber d e.amount) || !(currencyOk d e.currency) then
              let audits :=
                match e.uid, e.paymentId with
                | some u, some _ =>
                  if u ≠ "" then
                    [{ uid := u, action := "PAYMENT_MISMATCH",
                       meta := .mismatch "paydunya" token e.amount (receivedAmount jsNumber d)
                         (strUpper e.currency) (receivedCurrency d) "confirm" }]
                  else []
                | _, _ => []
              (some .PENDING, audits)
            else (some mapped, [])
          else (some mapped, [])
        | none => (some mapped, [])

/-- One row of the `entitlements` table (timestamps omitted: real time is
not modelled; they play no role in the claims). -/
structure Entitlement where
  uid : String
  resourceId : String
  sourcePaymentId : Nat
deriving DecidableEq, Repr

/-- The unique key of the `entitlements` table: `(uid, resourceId)`. -/
def entKey (u r : String) (e : Entitlement) : Bool :=
  e.uid == u && e.resourceId == r

/-- The drizzle `insert … onConflictDoUpdate` on the `(uid, resourceId)`
unique key, as used at route.ts lines 54-60 / 163-169 and in the admin
force-complete route: insert the row, or on conflict update
`sourcePaymentId` of the conflicting row(s). -/
def upsertEntitlement (ents : List Entitlement) (u r : String) (pid : Nat) : List Entitlement :=
  if ents.any (entKey u r) then
    ents.map (fun e => if entKey u r e then { e with sourcePaymentId := pid } else e)
  else
    ents ++ [{ uid := u, resourceId := r, sourcePaymentId := pid }]

/-- Number of entitlement rows carrying key `(u, r)`. -/
def countKey (ents : List Entitlement) (u r : String) : Nat :=
  (ents.filter (entKey u r)).length

/-- The origin payment recorded on the (first) entitlement row with key `(u, r)`. -/
def srcOf (ents : List Entitlement) (u r : String) : Option Nat :=
  (ents.find? (entKey u r)).map Entitlement.sourcePaymentId

/-- The database unique constraint on `(uid, resourceId)`: at most one row
per key. -/
def uniqKeys (ents : List Entitlement) : Prop :=
  ∀ u r, countKey ents u r ≤ 1

/-- Model of `ensureEntitlementsGranted` (route.ts lines 160-176): upsert the two
fixed resources, then insert one audit row.  Returns the new entitlement
table and the audit row. -/
def ensureEntitlementsGranted (ents : List Entitlement) (uid : String) (paymentId : Nat) :
    List Entitlement × AuditLog :=
  (upsertEntitlement (upsertEntitlement ents uid "BOOK_PART_2" paymentId)
      uid "BOOK_PART_3" paymentId,
   { uid := uid, action := "ENTITLEMENTS_GRANTED_VERIFY_PASS",
     meta := .granted ["BOOK_PART_2", "BOOK_PART_3"] paymentId "status_verify" })

/-- The entitlement upsert of the admin force-complete route
(src/unnamed/part_006 lines 47-58): one upsert keyed on
`(uid, planId)`. -/
def forceCompleteGrant (ents : List Entitlement) (uid planId : String) (pid : Nat) :
    List Entitlement :=
  upsertEntitlement ents uid planId pid

/-- One row of the `payments` table (fields the status route reads). -/
structure Payment where
  id : Nat
  uid : String
  planId : String
  providerToken : String
  amount : Int
  currency : String
  status : PayStatus
deriving DecidableEq, Repr

/-- The three tables the status route touches. -/
structure DbState where
  payments : List Payment
  entitlements : List Entitlement
  audits : List AuditLog
deriving DecidableEq, Repr

/-- Lookup `db.select` from payments by provider token, destructured to its
first row. -/
def findPayment (ps : List Payment) (token : String) : Option Payment :=
  ps.find? (fun p => p.providerToken == token)

/-- Update `db.update(payments)` setting the status of the row with this id. -/
def updateStatus (ps : List Payment) (id : Nat) (s : PayStatus) : List Payment :=
  ps.map (fun p => if p.id == id then { p with status := s } else p)

/-- The expectation the PENDING branch of GET passes to
`confirmWithPayDunya` (route.ts lines 39-44). -/
def rowExpect (row : Payment) : Expect :=
  { amount := row.amount, currency := row.currency,
    uid := some row.uid, paymentId := some row.id }

/-- The audit row of the fallback grant (route.ts lines 62-66). -/
def fallbackAudit (uid : String) (paymentId : Nat) : AuditLog :=
  { uid := uid, action := "ENTITLEMENTS_GRANTED_FALLBACK",
    meta := .granted ["BOOK_PART_2", "BOOK_PART_3"] paymentId "status_confirm" }

/-- What the GET handler responds on the paths the claims are about:
`statusRes s` is `jsonRes({status: s})`, `unknown` is
the UNKNOWN body with HTTP 404. -/
inductive GetResponse where
  | statusRes (s : PayStatus)
  | unknown
deriving DecidableEq, Repr

/-- The token-handling body of `GET /api/paydunya/status` (route.ts lines
23-70), as a state transformer on the database, given the outcome `pr` of
the one provider exchange the handler can make.  The rate limiter and the
missing-`token` 400 guard sit before this body and are not modelled. -/
def routeGET (jsNumber : String → JNum) (cfg : ConfirmCfg) (st : DbState)
    (token : String) (pr : ProviderResult) : DbState × GetResponse :=
  match findPayment st.payments token with
  | none =>
    let c := confirmWithPayDunya jsNumber cfg pr token none
    let st1 := { st with audits := st.audits ++ c.2 }
    match c.1 with
    | none => (st1, .unknown)
    | some s => (st1, .statusRes s)
  | some row =>
    if row.status ≠ .PENDING then
      if row.status = .COMPLETED then
        let g := ensureEntitlementsGranted st.entitlements row.uid row.id
        ({ st with entitlements := g.1, audits := st.audits ++ [g.2] }, .statusRes row.status)
      else (st, .statusRes row.status)
    else
      let c := confirmWithPayDunya jsNumber cfg pr token (some (rowExpect row))
      let st1 := { st with audits := st.audits ++ c.2 }
      match c.1 with
      | none => (st1, .statusRes row.status)
      | some s =>
        let merged := mergePaydunyaStatus row.status s
        let st2 := if merged ≠ row.status
          then { st1 with payments := updateStatus st1.payments row.id merged } else st1
        if merged = .COMPLETED then
          let ents := upsertEntitlement
            (upsertEntitlement st2.entitlements row.uid "BOOK_PART_2" row.id)
            row.uid "BOOK_PART_3" row.id
          ({ st2 with
              entitlements := ents
              audits := st2.audits ++ [fallbackAudit row.uid row.id] },
           .statusRes merged)
        else (st2, .statusRes merged)

/-- The three header slots `verifyIpnSignature` reads, in its preference
order (src/unnamed/part_001 lines 155-159).  `Headers.get` is
case-insensitive at the transport level, so in practice the slots
coincide; the code nevertheless reads three names and we model the reads
as written. -/
structure SigHeaders where
  xPaydunyaSignature : Option String
  paydunyaSignature : Option String
  paydunyaSignatureUC : Option String
deriving DecidableEq, Repr

/-- JS `a || b` for strings: first operand unless it is empty. -/
def firstTruthy (a b : String) : String :=
  if a ≠ "" then a else b

/-- The `provided` chain of `verifyIpnSignature`: first non-empty header
value, else the empty string. -/
def providedSig (h : SigHeaders) : String :=
  firstTruthy (h.xPaydunyaSignature.getD "")
    (firstTruthy (h.paydunyaSignature.getD "") (h.paydunyaSignatureUC.getD ""))

/-- Model of the regex replace in `normalize`: drop a leading sha256= or
sha512= algorithm tag, matched case-insensitively. -/
def stripAlgoTag (s : String) : String :=
  if (strLower s).startsWith "sha256=" || (strLower s).startsWith "sha512=" then s.drop 7
  else s

/-- The `normalize` closure of `verifyIpnSignature`: trim, strip the
algorithm tag, lowercase. -/
def normalizeSig (s : String) : String :=
  strLower (stripAlgoTag s.trim)

/-- UTF-8 byte length of a string, as `Buffer.from` with utf8 reports it. -/
def utf8Len (s : String) : Nat :=
  s.data.foldl (fun n c => n + c.utf8Size) 0

/-- The `timingSafeEq` closure: `false` on a byte-length mismatch, else
byte-wise (hence string) equality via `crypto.timingSafeEqual`. -/
def timingSafeEq (a b : String) : Bool :=
  if utf8Len a ≠ utf8Len b then false else a == b

/-- Model of `verifyIpnSignature` (src/unnamed/part_001 lines 154-202).
Here `hmacSha256`/`hmacSha512` are the external `crypto.createHmac` hex
digest collaborators, taking the key and the raw body, and
`privateKeyEnv` is the PAYDUNYA_PRIVATE_KEY environment variable. -/
def verifyIpnSignature (hmacSha256 hmacSha512 : String → String → String)
    (privateKeyEnv : Option String) (h : SigHeaders) (rawBody : String) : Bool :=
  let provided := providedSig h
  if provided = "" then false
  else
    let privateKey := privateKeyEnv.getD ""
    if privateKey = "" then false
    else
      let providedNorm := normalizeSig provided
      let expected256 := strLower (hmacSha256 privateKey rawBody)
      let expected512 := strLower (hmacSha512 privateKey rawBody)
      timingSafeEq providedNorm expected256 || timingSafeEq providedNorm expected512

/-- Modelled from the spec: the Status Normalizer as the claim states it —
"searches both the top-level status string and the nested invoice status
string" and classifies from what either contains.  Used only to compare
against `classifyStatus`, which is translated from the code. -/
def classifySpecBoth (d : ConfirmData) : PayStatus :=
  let top := strUpper (d.status.getD "")
  let inv := strUpper (d.invoiceStatus.getD "")
  let isCompleted := fun (s : String) =>
    strIncludes s "COMPLETE" || s == "PAID" || s == "SUCCESS" || s == "COMPLETED"
  let isFailed := fun (s : String) => strIncludes s "CANCEL" || strIncludes s "FAIL"
  if isCompleted top || isCompleted inv then .COMPLETED
  else if isFailed top || isFailed inv then .FAILED
  else .PENDING

/-- Modelled from the spec (amended): the Status Normalizer examines the
top-level status string if non-empty, otherwise the nested invoice status
string, and classifies that single text — COMPLETED if it contains
"COMPLETE" or equals "PAID"/"SUCCESS"/"COMPLETED", FAILED if it contains
"CANCEL" or "FAIL", PENDING otherwise. -/
def classifySpecFirst (d : ConfirmData) : PayStatus :=
  let sel := if d.status.getD "" ≠ "" then d.status.getD "" else d.invoiceStatus.getD ""
  let raw := strUpper sel
  if strIncludes raw "COMPLETE" || raw == "PAID" || raw == "SUCCESS" || raw == "COMPLETED" then
    .COMPLETED
  else if strIncludes raw "CANCEL" || strIncludes raw "FAIL" then .FAILED
  else .PENDING

/-- Concrete `Number()` collaborator used in witnesses: every string is
non-numeric. -/
def exJsNumber : String → JNum := fun _ => .nan

/-- A fully configured key environment, for witnesses. -/
def exCfg : ConfirmCfg :=
  { masterKey := some "mk"
    privateKey := some "pk"
    tokenKey := some "tk" }

/-- Confirm payload reporting "completed" with amount 4000, currency XOF. -/
def exMismData : ConfirmData :=
  { response_code := some "00"
    status := some "completed"
    invoiceStatus := none
    invoiceTotalAmount := .num 4000
    amount := .absent
    invoiceCurrency := some "XOF"
    currency := none }

/-- Expectation of a Payment of 5000 XOF, as the pull path supplies it. -/
def exExpect : Expect :=
  { amount := 5000
    currency := "XOF"
    uid := some "u1"
    paymentId := some 9 }

/-- The one mismatch audit row the gate inserts for `exMismData`/`exExpect`. -/
def exMismAudit : AuditLog :=
  { uid := "u1"
    action := "PAYMENT_MISMATCH"
    meta := .mismatch "paydunya" "T1" 5000 (.int 4000) "XOF" (some "XOF") "confirm" }

/-- Payload whose top-level status is the unrecognized "OPEN" while the
nested invoice status is "completed". -/
def exOpenNested : ConfirmData :=
  { response_code := some "00"
    status := some "OPEN"
    invoiceStatus := some "completed"
    invoiceTotalAmount := .absent
    amount := .absent
    invoiceCurrency := none
    currency := none }

/-- The all-absent payload: what a malformed JSON body parses to. -/
def emptyConfirmData : ConfirmData :=
  { response_code := none
    status := none
    invoiceStatus := none
    invoiceTotalAmount := .absent
    amount := .absent
    invoiceCurrency := none
    currency := none }

/-- Payload reporting completed with no currency anywhere and a non-numeric
amount string. -/
def exNoAmountData : ConfirmData :=
  { response_code := some "00"
    status := some "completed"
    invoiceStatus := none
    invoiceTotalAmount := .absent
    amount := .str "abc"
    invoiceCurrency := none
    currency := none }

/-- Payload reporting completed and matching a 5000 XOF expectation. -/
def exGoodData : ConfirmData :=
  { response_code := some "00"
    status := some "completed"
    invoiceStatus := none
    invoiceTotalAmount := .num 5000
    amount := .absent
    invoiceCurrency := some "XOF"
    currency := none }

/-- A stored COMPLETED donation payment. -/
def exRowCompleted : Payment :=
  { id := 1
    uid := "u1"
    planId := "DONATION_QUETE"
    providerToken := "T1"
    amount := 5000
    currency := "XOF"
    status := .COMPLETED }

/-- A stored PENDING donation payment. -/
def exRowPending : Payment :=
  { id := 2
    uid := "u2"
    planId := "DONATION_MESSE"
    providerToken := "T2"
    amount := 5000
    currency := "XOF"
    status := .PENDING }

/-- Database holding only `exRowCompleted`. -/
def exStCompleted : DbState :=
  { payments := [exRowCompleted]
    entitlements := []
    audits := [] }

/-- Database holding only `exRowPending`. -/
def exStPending : DbState :=
  { payments := [exRowPending]
    entitlements := []
    audits := [] }

/-- The empty database. -/
def exStEmpty : DbState :=
  { payments := []
    entitlements := []
    audits := [] }

/-! ## Theorems -/

/-- An empty entitlement table satisfies the unique-key constraint. -/
theorem uniqKeys_nil : uniqKeys [] := by
  intro u r
  simp [countKey]

/-- `timingSafeEq` decides plain string equality: equal strings have equal
byte lengths, and `crypto.timingSafeEqual` on equal-length buffers is
byte equality. -/
theorem timingSafeEq_iff (a b : String) : timingSafeEq a b = true ↔ a = b := by
  unfold timingSafeEq
  by_cases h : utf8Len a = utf8Len b
  · simp [h]
  · simp [h]
    intro e
    exact h (by rw [e])

/-- C1: `mergePaydunyaStatus` is commutative and idempotent and follows the
priority order COMPLETED > FAILED > PENDING: the result is COMPLETED if
either argument is COMPLETED, otherwise FAILED if either is FAILED,
otherwise PENDING. -/
theorem C1_merge_policy :
    (∀ a b : PayStatus, mergePaydunyaStatus a b = mergePaydunyaStatus b a) ∧
    (∀ a b : PayStatus,
      mergePaydunyaStatus (mergePaydunyaStatus a b) b = mergePaydunyaStatus a b) ∧
    (∀ a b : PayStatus, (a = .COMPLETED ∨ b = .COMPLETED) →
      mergePaydunyaStatus a b = .COMPLETED) ∧
    (∀ a b : PayStatus, a ≠ .COMPLETED → b ≠ .COMPLETED → (a = .FAILED ∨ b = .FAILED) →
      mergePaydunyaStatus a b = .FAILED) ∧
    mergePaydunyaStatus .PENDING .PENDING = .PENDING := by
  decide

/-- Witness for C1 at concrete statuses. -/
theorem C1_merge_policy_witness :
    mergePaydunyaStatus .PENDING .FAILED = .FAILED :=
  C1_merge_policy.2.2.2.1 .PENDING .FAILED (by decide) (by decide) (Or.inr rfl)

/-- Counterexample to C5 as stated: on a payload whose top-level status is
the unrecognized non-empty string "OPEN" and whose nested invoice status is
"completed", a classifier that searches both strings yields COMPLETED, but
the code classifies only the top-level string and yields PENDING. -/
theorem C5_counterexample :
    classifyStatus exOpenNested = .PENDING ∧ classifySpecBoth exOpenNested = .COMPLETED := by
  decide

/-- C5 (amended): the classifier examines the top-level status string if
non-empty, otherwise the nested invoice status string; on that single text
(upper-cased) it yields COMPLETED if it contains "COMPLETE" or equals
"PAID"/"SUCCESS"/"COMPLETED", FAILED if it contains "CANCEL" or "FAIL",
and PENDING otherwise — in particular an empty or unrecognized selected
status maps to PENDING, never COMPLETED. -/
theorem C5_amended_classifier :
    (∀ d, classifyStatus d = classifySpecFirst d) ∧
    (∀ d, statusSelected d = "" → classifyStatus d = .PENDING) := by
  constructor
  · intro d
    unfold classifyStatus classifySpecFirst statusSelected
    by_cases h1 : d.status.getD "" = "" <;> by_cases h2 : d.invoiceStatus.getD "" = "" <;>
      simp [h1, h2]
  · intro d h
    unfold classifyStatus
    rw [h]
    decide

/-- Witness for C5 (amended) on the all-absent payload. -/
theorem C5_amended_witness : classifyStatus emptyConfirmData = .PENDING :=
  C5_amended_classifier.2 emptyConfirmData rfl

/-- Updating `sourcePaymentId` leaves the unique key of a row unchanged. -/
theorem entKey_update (u r : String) (e : Entitlement) (pid : Nat) :
    entKey u r { e with sourcePaymentId := pid } = entKey u r e := rfl

/-- A map that preserves a predicate preserves the filtered length. -/
theorem length_filter_map_pres (p : Entitlement → Bool) (f : Entitlement → Entitlement)
    (hf : ∀ e, p (f e) = p e) (ents : List Entitlement) :
    ((ents.map f).filter p).length = (ents.filter p).length := by
  induction ents with
  | nil => rfl
  | cons e es ih =>
    simp only [List.map_cons, List.filter_cons, hf]
    cases h : p e <;> simp [h, ih]

/-- The conflict-update pass of the upsert changes the row count of no key. -/
theorem countKey_map_upd (u r u' r' : String) (pid : Nat) (ents : List Entitlement) :
    countKey (ents.map (fun e => if entKey u r e then { e with sourcePaymentId := pid } else e))
        u' r'
      = countKey ents u' r' := by
  unfold countKey
  refine length_filter_map_pres _ _ (fun e => ?_) ents
  by_cases h : entKey u r e <;> simp [h, entKey_update]

/-- A key that occurs in the table gets `sourcePaymentId := pid` on its
first row under the conflict-update pass. -/
theorem srcOf_map_upd_of_any (u r : String) (pid : Nat) (ents : List Entitlement)
    (h : ents.any (entKey u r) = true) :
    ((ents.map (fun e => if entKey u r e then { e with sourcePaymentId := pid } else e)).find?
        (entKey u r)).map Entitlement.sourcePaymentId
      = some pid := by
  induction ents with
  | nil => simp at h
  | cons e es ih =>
    simp only [List.map_cons]
    by_cases he : entKey u r e = true
    · rw [if_pos he, List.find?_cons_of_pos _ (by rw [entKey_update]; exact he)]
      rfl
    · have h' : es.any (entKey u r) = true := by
        have hf : entKey u r e = false := by
          revert he
          cases entKey u r e <;> simp
        simpa [List.any_cons, hf] using h
      rw [if_neg he, List.find?_cons_of_neg _ he]
      exact ih h'

/-- The conflict-update pass leaves the first row of every other key unchanged. -/
theorem find?_map_upd_other (u r u' r' : String) (pid : Nat) (ents : List Entitlement)
    (hne : ¬(u' = u ∧ r' = r)) :
    (ents.map (fun e => if entKey u r e then { e with sourcePaymentId := pid } else e)).find?
        (entKey u' r')
      = ents.find? (entKey u' r') := by
  induction ents with
  | nil => rfl
  | cons e es ih =>
    simp only [List.map_cons]
    by_cases he : entKey u' r' e = true
    · have hker : ¬ entKey u r e = true := by
        intro hq
        apply hne
        simp only [entKey, Bool.and_eq_true, beq_iff_eq] at he hq
        exact ⟨he.1 ▸ hq.1, he.2 ▸ hq.2⟩
      rw [if_neg hker, List.find?_cons_of_pos _ he, List.find?_cons_of_pos _ he]
    · have hkey :
          ¬ entKey u' r' (if entKey u r e = true then { e with sourcePaymentId := pid } else e)
            = true := by
        by_cases hq : entKey u r e = true <;> simp [hq, entKey_update, he]
      rw [List.find?_cons_of_neg _ hkey, List.find?_cons_of_neg _ he]
      exact ih

/-- If no row carries the key, appending the fresh row makes it the
first (and only) match. -/
theorem find?_append_new (u r : String) (pid : Nat) (ents : List Entitlement)
    (h : ents.any (entKey u r) = false) :
    (ents ++ [({ uid := u, resourceId := r, sourcePaymentId := pid } : Entitlement)]).find?
        (entKey u r)
      = some ({ uid := u, resourceId := r, sourcePaymentId := pid } : Entitlement) := by
  rw [List.find?_append]
  have hnone : ents.find? (entKey u r) = none := by
    rw [List.find?_eq_none]
    intro x hx
    intro hpx
    have : ents.any (entKey u r) = true := List.any_eq_true.mpr ⟨x, hx, hpx⟩
    rw [h] at this
    exact Bool.false_ne_true this
  have hkey : entKey u r ({ uid := u, resourceId := r, sourcePaymentId := pid } : Entitlement)
      = true := by
    simp [entKey]
  rw [hnone, List.find?_cons_of_pos _ hkey]
  rfl

/-- If no row carries the key, the filter of the table at that key is empty. -/
theorem countKey_zero_of_not_any (u r : String) (ents : List Entitlement)
    (h : ents.any (entKey u r) = false) :
    countKey ents u r = 0 := by
  unfold countKey
  rw [List.length_eq_zero, List.filter_eq_nil_iff]
  intro a ha hpa
  have : ents.any (entKey u r) = true := List.any_eq_true.mpr ⟨a, ha, hpa⟩
  rw [h] at this
  exact Bool.false_ne_true this

/-- If some row carries the key, the count at that key is positive. -/
theorem countKey_pos_of_any (u r : String) (ents : List Entitlement)
    (h : ents.any (entKey u r) = true) :
    0 < countKey ents u r := by
  obtain ⟨x, hx, hpx⟩ := List.any_eq_true.mp h
  unfold countKey
  rw [List.length_pos]
  exact List.ne_nil_of_mem (List.mem_filter.mpr ⟨hx, hpx⟩)

/-- After an upsert, the upserted key has exactly one row (given the
unique-key constraint of the table). -/
theorem countKey_upsert_self (u r : String) (pid : Nat) (ents : List Entitlement)
    (hle : countKey ents u r ≤ 1) :
    countKey (upsertEntitlement ents u r pid) u r = 1 := by
  unfold upsertEntitlement
  by_cases h : ents.any (entKey u r) = true
  · rw [if_pos h, countKey_map_upd]
    exact Nat.le_antisymm hle (countKey_pos_of_any u r ents h)
  · have hf : ents.any (entKey u r) = false := by
      revert h
      cases ents.any (entKey u r) <;> simp
    rw [if_neg h]
    unfold countKey
    rw [List.filter_append, List.length_append]
    have h0 : countKey ents u r = 0 := countKey_zero_of_not_any u r ents hf
    unfold countKey at h0
    rw [h0]
    simp [entKey]

/-- After an upsert, the row of the upserted key records the new payment id. -/
theorem srcOf_upsert_self (u r : String) (pid : Nat) (ents : List Entitlement) :
    srcOf (upsertEntitlement ents u r pid) u r = some pid := by
  unfold upsertEntitlement srcOf
  by_cases h : ents.any (entKey u r) = true
  · rw [if_pos h]
    exact srcOf_map_upd_of_any u r pid ents h
  · have hf : ents.any (entKey u r) = false := by
      revert h
      cases ents.any (entKey u r) <;> simp
    rw [if_neg h, find?_append_new u r pid ents hf]
    rfl

/-- An upsert changes the row count of no other key. -/
theorem countKey_upsert_other (u r u' r' : String) (pid : Nat) (ents : List Entitlement)
    (hne : ¬(u' = u ∧ r' = r)) :
    countKey (upsertEntitlement ents u r pid) u' r' = countKey ents u' r' := by
  unfold upsertEntitlement
  by_cases h : ents.any (entKey u r) = true
  · rw [if_pos h, countKey_map_upd]
  · rw [if_neg h]
    unfold countKey
    rw [List.filter_append, List.length_append]
    have hnew : entKey u' r' { uid := u, resourceId := r, sourcePaymentId := pid } = false := by
      cases hq : entKey u' r'
          ({ uid := u, resourceId := r, sourcePaymentId := pid } : Entitlement) with
      | false => rfl
      | true =>
        exfalso
        apply hne
        simp only [entKey, Bool.and_eq_true, beq_iff_eq] at hq
        exact ⟨hq.1.symm, hq.2.symm⟩
    simp [hnew]

/-- An upsert changes the first row of no other key. -/
theorem srcOf_upsert_other (u r u' r' : String) (pid : Nat) (ents : List Entitlement)
    (hne : ¬(u' = u ∧ r' = r)) :
    srcOf (upsertEntitlement ents u r pid) u' r' = srcOf ents u' r' := by
  unfold upsertEntitlement srcOf
  by_cases h : ents.any (entKey u r) = true
  · rw [if_pos h, find?_map_upd_other u r u' r' pid ents hne]
  · rw [if_neg h, List.find?_append]
    have hnew : entKey u' r' { uid := u, resourceId := r, sourcePaymentId := pid } = false := by
      cases hq : entKey u' r' ({ uid := u, resourceId := r, sourcePaymentId := pid } : Entitlement) with
      | false => rfl
      | true =>
        exfalso
        apply hne
        simp only [entKey, Bool.and_eq_true, beq_iff_eq] at hq
        exact ⟨hq.1.symm, hq.2.symm⟩
    simp [hnew]

/-- An upsert preserves the unique-key constraint. -/
theorem uniqKeys_upsert (u r : String) (pid : Nat) (ents : List Entitlement)
    (hu : uniqKeys ents) :
    uniqKeys (upsertEntitlement ents u r pid) := by
  intro u' r'
  by_cases hne : u' = u ∧ r' = r
  · obtain ⟨h1, h2⟩ := hne
    subst h1; subst h2
    rw [countKey_upsert_self u' r' pid ents (hu u' r')]
  · rw [countKey_upsert_other u r u' r' pid ents hne]
    exact hu u' r'

/-- After the double upsert of the two fixed book resources, each of the
two keys has exactly one row recording `pid`, and the unique-key
constraint still holds. -/
theorem upsert2_post (u : String) (pid : Nat) (ents : List Entitlement) (hu : uniqKeys ents) :
    countKey (upsertEntitlement (upsertEntitlement ents u "BOOK_PART_2" pid)
        u "BOOK_PART_3" pid) u "BOOK_PART_2" = 1 ∧
    srcOf (upsertEntitlement (upsertEntitlement ents u "BOOK_PART_2" pid)
        u "BOOK_PART_3" pid) u "BOOK_PART_2" = some pid ∧
    countKey (upsertEntitlement (upsertEntitlement ents u "BOOK_PART_2" pid)
        u "BOOK_PART_3" pid) u "BOOK_PART_3" = 1 ∧
    srcOf (upsertEntitlement (upsertEntitlement ents u "BOOK_PART_2" pid)
        u "BOOK_PART_3" pid) u "BOOK_PART_3" = some pid ∧
    uniqKeys (upsertEntitlement (upsertEntitlement ents u "BOOK_PART_2" pid)
        u "BOOK_PART_3" pid) := by
  have hne23 : ¬(u = u ∧ ("BOOK_PART_2" : String) = "BOOK_PART_3") := by
    intro hc
    exact absurd hc.2 (by decide)
  have hu2 : uniqKeys (upsertEntitlement ents u "BOOK_PART_2" pid) :=
    uniqKeys_upsert _ _ _ _ hu
  refine ⟨?_, ?_, ?_, ?_, ?_⟩
  · rw [countKey_upsert_other u "BOOK_PART_3" u "BOOK_PART_2" pid _ hne23]
    exact countKey_upsert_self _ _ _ _ (hu u "BOOK_PART_2")
  · rw [srcOf_upsert_other u "BOOK_PART_3" u "BOOK_PART_2" pid _ hne23]
    exact srcOf_upsert_self _ _ _ _
  · exact countKey_upsert_self _ _ _ _ (hu2 u "BOOK_PART_3")
  · exact srcOf_upsert_self _ _ _ _
  · exact uniqKeys_upsert _ _ _ _ hu2

/-- `ensureEntitlementsGranted` preserves the unique-key constraint. -/
theorem uniqKeys_ensure (u : String) (pid : Nat) (ents : List Entitlement) (hu : uniqKeys ents) :
    uniqKeys (ensureEntitlementsGranted ents u pid).1 :=
  uniqKeys_upsert _ _ _ _ (uniqKeys_upsert _ _ _ _ hu)

/-- Iterated `ensureEntitlementsGranted` preserves the unique-key constraint. -/
theorem uniqKeys_ensure_fold (u : String) (pids : List Nat) (ents : List Entitlement)
    (hu : uniqKeys ents) :
    uniqKeys (pids.foldl (fun es pid => (ensureEntitlementsGranted es u pid).1) ents) := by
  induction pids generalizing ents with
  | nil => exact hu
  | cons p ps ih => exact ih _ (uniqKeys_ensure u p ents hu)

/-- Iterated force-complete grants preserve the unique-key constraint. -/
theorem uniqKeys_force_fold (u planId : String) (pids : List Nat) (ents : List Entitlement)
    (hu : uniqKeys ents) :
    uniqKeys (pids.foldl (fun es pid => forceCompleteGrant es u planId pid) ents) := by
  induction pids generalizing ents with
  | nil => exact hu
  | cons p ps ih => exact ih _ (uniqKeys_upsert _ _ _ _ hu)

/-- C8: granting is idempotent.  For any starting table satisfying the
unique `(user, resource)` constraint and any non-empty sequence of grant
invocations (the last one carrying payment id `p`), the table ends with
exactly one row per granted `(user, resource)` pair — the upsert never
creates duplicates — and the source payment id of that row is that of the
most recent invocation: this holds both for `ensureEntitlementsGranted` (resources
BOOK_PART_2/BOOK_PART_3) and for the admin fallback grant keyed on
`planId`. -/
theorem C8_entitlement_idempotent (ents : List Entitlement) (u planId : String)
    (pids ps : List Nat) (p : Nat)
    (hu : uniqKeys ents) (hlast : pids = ps ++ [p]) :
    (countKey (pids.foldl (fun es pid => (ensureEntitlementsGranted es u pid).1) ents)
        u "BOOK_PART_2" = 1 ∧
     srcOf (pids.foldl (fun es pid => (ensureEntitlementsGranted es u pid).1) ents)
        u "BOOK_PART_2" = some p ∧
     countKey (pids.foldl (fun es pid => (ensureEntitlementsGranted es u pid).1) ents)
        u "BOOK_PART_3" = 1 ∧
     srcOf (pids.foldl (fun es pid => (ensureEntitlementsGranted es u pid).1) ents)
        u "BOOK_PART_3" = some p ∧
     uniqKeys (pids.foldl (fun es pid => (ensureEntitlementsGranted es u pid).1) ents)) ∧
    (countKey (pids.foldl (fun es pid => forceCompleteGrant es u planId pid) ents)
        u planId = 1 ∧
     srcOf (pids.foldl (fun es pid => forceCompleteGrant es u planId pid) ents)
        u planId = some p ∧
     uniqKeys (pids.foldl (fun es pid => forceCompleteGrant es u planId pid) ents)) := by
  subst hlast
  rw [List.foldl_append, List.foldl_append]
  simp only [List.foldl_cons, List.foldl_nil]
  constructor
  · exact upsert2_post u p _ (uniqKeys_ensure_fold u ps ents hu)
  · have huf : uniqKeys (ps.foldl (fun es pid => forceCompleteGrant es u planId pid) ents) :=
      uniqKeys_force_fold u planId ps ents hu
    exact ⟨countKey_upsert_self _ _ _ _ (huf u planId), srcOf_upsert_self _ _ _ _,
      uniqKeys_upsert _ _ _ _ huf⟩

/-- Witness for C8: two grant invocations on an empty table leave one
BOOK_PART_2 row, whose source payment is the id of the second
invocation. -/
theorem C8_entitlement_idempotent_witness :
    countKey ([5, 7].foldl (fun es pid => (ensureEntitlementsGranted es "u1" pid).1) [])
        "u1" "BOOK_PART_2" = 1 ∧
    srcOf ([5, 7].foldl (fun es pid => (ensureEntitlementsGranted es "u1" pid).1) [])
        "u1" "BOOK_PART_2" = some 7 :=
  ⟨(C8_entitlement_idempotent [] "u1" "X" [5, 7] [5] 7 uniqKeys_nil rfl).1.1,
   (C8_entitlement_idempotent [] "u1" "X" [5, 7] [5] 7 uniqKeys_nil rfl).1.2.1⟩

/-- C4: `verifyIpnSignature` returns true exactly when a signature header
is present, the private key is configured, and the normalized provided
value (trimmed, algorithm tag stripped, lower-cased) equals the
HMAC-SHA256 or the HMAC-SHA512 hex digest of the raw body under the
private key; any byte-length mismatch in the comparison is a non-match,
not an error. -/
theorem C4_signature_accepts_iff :
    (∀ (hmac256 hmac512 : String → String → String) (pk : Option String)
        (hdrs : SigHeaders) (body : String),
      verifyIpnSignature hmac256 hmac512 pk hdrs body = true ↔
        (providedSig hdrs ≠ "" ∧ pk.getD "" ≠ "" ∧
          (normalizeSig (providedSig hdrs) = strLower (hmac256 (pk.getD "") body) ∨
           normalizeSig (providedSig hdrs) = strLower (hmac512 (pk.getD "") body)))) ∧
    (∀ a b : String, utf8Len a ≠ utf8Len b → timingSafeEq a b = false) := by
  constructor
  · intro hmac256 hmac512 pk hdrs body
    unfold verifyIpnSignature
    by_cases hp : providedSig hdrs = ""
    · simp [hp]
    · by_cases hk : pk.getD "" = ""
      · simp [hp, hk]
      · simp [hp, hk, timingSafeEq_iff]
  · intro a b h
    unfold timingSafeEq
    simp [h]

/-- Witness for C4: a byte-length mismatch is a non-match. -/
theorem C4_signature_accepts_iff_witness : timingSafeEq "ab" "abc" = false :=
  C4_signature_accepts_iff.2 "ab" "abc" (by decide)

/-- A network failure on the confirm fetch yields `null` and no inserts. -/
theorem confirm_unreachable (j : String → JNum) (cfg : ConfirmCfg) (tok : String)
    (e : Option Expect) :
    confirmWithPayDunya j cfg .unreachable tok e = (none, []) := by
  unfold confirmWithPayDunya
  by_cases h : cfg.keysMissing = true <;> simp [h]

/-- Every pull-path failure mode — missing configuration keys, unreachable
provider, non-OK HTTP response, or a missing/errored `response_code`
(which covers a malformed JSON body, parsed as `{}`) — makes
`confirmWithPayDunya` return `null` with no inserts. -/
theorem confirm_fail (j : String → JNum) (cfg : ConfirmCfg) (pr : ProviderResult)
    (tok : String) (e : Option Expect)
    (h : cfg.keysMissing = true ∨ pr = .unreachable ∨ (∃ d, pr = .response false d) ∨
         (∃ ok d, pr = .response ok d ∧ d.response_code ≠ some "00")) :
    confirmWithPayDunya j cfg pr tok e = (none, []) := by
  rcases h with hk | hpr | ⟨d, hpr⟩ | ⟨ok, d, hpr, hrc⟩
  · unfold confirmWithPayDunya
    simp [hk]
  · subst hpr
    exact confirm_unreachable j cfg tok e
  · subst hpr
    unfold confirmWithPayDunya
    by_cases hk : cfg.keysMissing = true <;> simp [hk]
  · subst hpr
    unfold confirmWithPayDunya
    by_cases hk : cfg.keysMissing = true
    · simp [hk]
    · cases ok
      · simp [hk]
      · simp [hk, hrc]

/-- With no expectation the confirm path never inserts audit rows. -/
theorem confirm_none_expect_audits (j : String → JNum) (cfg : ConfirmCfg)
    (pr : ProviderResult) (tok : String) :
    (confirmWithPayDunya j cfg pr tok none).2 = [] := by
  unfold confirmWithPayDunya
  by_cases hk : cfg.keysMissing = true
  · simp [hk]
  · cases pr with
    | unreachable => simp [hk]
    | response ok d =>
      cases ok
      · simp [hk]
      · by_cases hrc : d.response_code = some "00"
        · simp [hk, hrc]
        · simp [hk, hrc]

/-- C2: COMPLETED is terminally sticky: merging any later observation into
COMPLETED yields COMPLETED, the merge never moves a non-PENDING status
back to PENDING, and the status-pull route leaves the payments table
untouched (responding COMPLETED) whenever the stored row is COMPLETED. -/
theorem C2_completed_sticky :
    (∀ inc, mergePaydunyaStatus .COMPLETED inc = .COMPLETED) ∧
    (∀ a b, a ≠ PayStatus.PENDING → mergePaydunyaStatus a b ≠ .PENDING) ∧
    (∀ (j : String → JNum) (cfg : ConfirmCfg) (st : DbState) (tok : String)
        (pr : ProviderResult) (row : Payment),
      findPayment st.payments tok = some row → row.status = .COMPLETED →
      (routeGET j cfg st tok pr).1.payments = st.payments ∧
      (routeGET j cfg st tok pr).2 = .statusRes .COMPLETED) := by
  refine ⟨by decide, by decide, ?_⟩
  intro j cfg st tok pr row hfind hC
  unfold routeGET
  rw [hfind]
  simp [hC]

/-- Witness for C2 on a concrete COMPLETED row. -/
theorem C2_completed_sticky_witness :
    (routeGET exJsNumber exCfg exStCompleted "T1" .unreachable).1.payments
        = exStCompleted.payments ∧
    (routeGET exJsNumber exCfg exStCompleted "T1" .unreachable).2 = .statusRes .COMPLETED :=
  C2_completed_sticky.2.2 exJsNumber exCfg exStCompleted "T1" .unreachable exRowCompleted
    (by decide) rfl

/-- C6: when the stored row is PENDING and the provider exchange carries no
usable information (missing keys, unreachable, non-OK, or bad/absent
response code — including a malformed body), the pull route returns the
stored status and changes nothing. -/
theorem C6_pull_failure_degrades (j : String → JNum) (cfg : ConfirmCfg) (st : DbState)
    (tok : String) (pr : ProviderResult) (row : Payment)
    (hfind : findPayment st.payments tok = some row) (hP : row.status = .PENDING)
    (hfail : cfg.keysMissing = true ∨ pr = .unreachable ∨ (∃ d, pr = .response false d) ∨
        (∃ ok d, pr = .response ok d ∧ d.response_code ≠ some "00")) :
    routeGET j cfg st tok pr = (st, .statusRes row.status) := by
  have hc := confirm_fail j cfg pr tok (some (rowExpect row)) hfail
  unfold routeGET
  rw [hfind]
  simp [hP, hc]

/-- Witness for C6: unreachable provider on a stored PENDING row. -/
theorem C6_pull_failure_degrades_witness :
    routeGET exJsNumber exCfg exStPending "T2" .unreachable
      = (exStPending, .statusRes exRowPending.status) :=
  C6_pull_failure_degrades exJsNumber exCfg exStPending "T2" .unreachable exRowPending
    (by decide) rfl (Or.inr (Or.inl rfl))

/-- C7: a pull for a token with no stored Payment changes no state at all;
the response is the normalized provider status when the direct query
yields one, and UNKNOWN (HTTP 404) when it does not — in particular when
the provider is unreachable. -/
theorem C7_unknown_token (j : String → JNum) (cfg : ConfirmCfg) (st : DbState)
    (tok : String) (pr : ProviderResult)
    (hfind : findPayment st.payments tok = none) :
    (routeGET j cfg st tok pr).1 = st ∧
    (routeGET j cfg st tok pr).2 =
      (match (confirmWithPayDunya j cfg pr tok none).1 with
        | none => GetResponse.unknown
        | some s => GetResponse.statusRes s) ∧
    (pr = .unreachable → (routeGET j cfg st tok pr).2 = GetResponse.unknown) := by
  have ha := confirm_none_expect_audits j cfg pr tok
  refine ⟨?_, ?_, ?_⟩
  · unfold routeGET
    rw [hfind]
    cases hc : (confirmWithPayDunya j cfg pr tok none).1 <;> simp [hc, ha]
  · unfold routeGET
    rw [hfind]
    cases hc : (confirmWithPayDunya j cfg pr tok none).1 <;> simp [hc, ha]
  · intro hu
    subst hu
    unfold routeGET
    rw [hfind]
    simp [confirm_unreachable]

/-- Witness for C7: unknown token with unreachable provider on the empty
database. -/
theorem C7_unknown_token_witness :
    (routeGET exJsNumber exCfg exStEmpty "TX" .unreachable).1 = exStEmpty ∧
    (routeGET exJsNumber exCfg exStEmpty "TX" .unreachable).2 = GetResponse.unknown :=
  ⟨(C7_unknown_token exJsNumber exCfg exStEmpty "TX" .unreachable rfl).1,
   (C7_unknown_token exJsNumber exCfg exStEmpty "TX" .unreachable rfl).2.2 rfl⟩

/-- C3: the amount/currency anti-fraud gate.  On a confirm response
classified COMPLETED with expectations supplied (as the pull path supplies
them: amount, currency, uid, paymentId), if the provider-reported amount
is a number different from the expected amount, or the provider-reported
currency is a non-empty string differing (after upper-casing both sides)
from the expected currency, then `confirmWithPayDunya` returns PENDING
instead of COMPLETED and inserts exactly one PAYMENT_MISMATCH audit record
carrying the expected and received amount and currency. -/
theorem C3_mismatch_gate (j : String → JNum) (cfg : ConfirmCfg) (d : ConfirmData)
    (tok : String) (e : Expect) (u : String) (pid : Nat)
    (hkeys : cfg.keysMissing = false)
    (hrc : d.response_code = some "00")
    (hmap : classifyStatus d = .COMPLETED)
    (huid : e.uid = some u) (hune : u ≠ "") (hpid : e.paymentId = some pid)
    (hmm : (∃ n, receivedAmount j d = .int n ∧ n ≠ e.amount) ∨
           (∃ c, receivedCurrency d = some c ∧ c ≠ "" ∧ c ≠ strUpper e.currency)) :
    confirmWithPayDunya j cfg (.response true d) tok (some e) =
      (some .PENDING,
       [{ uid := u, action := "PAYMENT_MISMATCH",
          meta := .mismatch "paydunya" tok e.amount (receivedAmount j d)
            (strUpper e.currency) (receivedCurrency d) "confirm" }]) := by
  have hok : (!(amountOk j d e.amount) || !(currencyOk d e.currency)) = true := by
    rcases hmm with ⟨n, hn, hne⟩ | ⟨c, hc, hcne, hcneq⟩
    · have hfalse : amountOk j d e.amount = false := by
        unfold amountOk
        rw [hn]
        simp [hne]
      simp [hfalse]
    · have hfalse : currencyOk d e.currency = false := by
        unfold currencyOk
        rw [hc]
        simp [hcne, hcneq]
      simp [hfalse]
  unfold confirmWithPayDunya
  simp [hkeys, hrc, hmap, huid, hpid, hune, hok]

/-- Witness for C3, the scenario of the spec: expectation 5000 XOF, provider
reports "completed" with amount 4000 — result PENDING with exactly one
mismatch audit record carrying expected 5000 and received 4000. -/
theorem C3_mismatch_gate_witness :
    confirmWithPayDunya exJsNumber exCfg (.response true exMismData) "T1" (some exExpect)
      = (some .PENDING, [exMismAudit]) :=
  C3_mismatch_gate exJsNumber exCfg exMismData "T1" exExpect "u1" 9 (by decide) rfl
    (by decide) rfl (by decide) rfl (Or.inl ⟨4000, rfl, by decide⟩)

/-- C9 (implicit): on a confirm response classified COMPLETED whose amount
is absent or not parseable as a number, the amount check defaults to
passing, and with no currency string the currency check passes, so the
response is returned as COMPLETED with no mismatch audit record even
though expectations were supplied. -/
theorem C9_unparseable_amount_passes (j : String → JNum) (cfg : ConfirmCfg) (d : ConfirmData)
    (tok : String) (e : Expect)
    (hkeys : cfg.keysMissing = false) (hrc : d.response_code = some "00")
    (hmap : classifyStatus d = .COMPLETED)
    (hamt : receivedAmount j d = .nan) (hcur : receivedCurrency d = none) :
    amountOk j d e.amount = true ∧ currencyOk d e.currency = true ∧
    confirmWithPayDunya j cfg (.response true d) tok (some e) = (some .COMPLETED, []) := by
  have ha : amountOk j d e.amount = true := by
    unfold amountOk
    rw [hamt]
  have hc : currencyOk d e.currency = true := by
    unfold currencyOk
    rw [hcur]
  refine ⟨ha, hc, ?_⟩
  unfold confirmWithPayDunya
  simp [hkeys, hrc, hmap, ha, hc]

/-- Witness for C9: "completed" with a non-numeric amount string and no
currency passes the guard. -/
theorem C9_unparseable_amount_passes_witness :
    confirmWithPayDunya exJsNumber exCfg (.response true exNoAmountData) "T1" (some exExpect)
      = (some .COMPLETED, []) :=
  (C9_unparseable_amount_passes exJsNumber exCfg exNoAmountData "T1" exExpect
    (by decide) rfl (by decide) rfl rfl).2.2

/-- C10 (implicit): the pull-path grant always grants the fixed resource
set {BOOK_PART_2, BOOK_PART_3}, for every payment that resolves to
COMPLETED, regardless of the planId of the payment (donation plans included) —
both on the self-healing path for already-COMPLETED rows and on the
fallback path after a merge to COMPLETED. -/
theorem C10_fixed_resource_grant (j : String → JNum) (cfg : ConfirmCfg) (st : DbState)
    (tok : String) (pr : ProviderResult) (row : Payment)
    (hu : uniqKeys st.entitlements)
    (hfind : findPayment st.payments tok = some row) :
    (row.status = .COMPLETED →
      countKey (routeGET j cfg st tok pr).1.entitlements row.uid "BOOK_PART_2" = 1 ∧
      srcOf (routeGET j cfg st tok pr).1.entitlements row.uid "BOOK_PART_2" = some row.id ∧
      countKey (routeGET j cfg st tok pr).1.entitlements row.uid "BOOK_PART_3" = 1 ∧
      srcOf (routeGET j cfg st tok pr).1.entitlements row.uid "BOOK_PART_3" = some row.id) ∧
    (row.status = .PENDING →
      (confirmWithPayDunya j cfg pr tok (some (rowExpect row))).1 = some .COMPLETED →
      countKey (routeGET j cfg st tok pr).1.entitlements row.uid "BOOK_PART_2" = 1 ∧
      srcOf (routeGET j cfg st tok pr).1.entitlements row.uid "BOOK_PART_2" = some row.id ∧
      countKey (routeGET j cfg st tok pr).1.entitlements row.uid "BOOK_PART_3" = 1 ∧
      srcOf (routeGET j cfg st tok pr).1.entitlements row.uid "BOOK_PART_3" = some row.id) := by
  have hpost := upsert2_post row.uid row.id st.entitlements hu
  constructor
  · intro hC
    unfold routeGET
    rw [hfind]
    simp [hC, ensureEntitlementsGranted]
    exact ⟨hpost.1, hpost.2.1, hpost.2.2.1, hpost.2.2.2.1⟩
  · intro hP hconf
    unfold routeGET
    rw [hfind]
    simp [hP, hconf, mergePaydunyaStatus]
    exact ⟨hpost.1, hpost.2.1, hpost.2.2.1, hpost.2.2.2.1⟩

/-- Witness for C10: a COMPLETED donation payment (planId DONATION_QUETE)
still gets exactly the two book entitlements. -/
theorem C10_fixed_resource_grant_witness :
    countKey (routeGET exJsNumber exCfg exStCompleted "T1" .unreachable).1.entitlements
        "u1" "BOOK_PART_2" = 1 ∧
    srcOf (routeGET exJsNumber exCfg exStCompleted "T1" .unreachable).1.entitlements
        "u1" "BOOK_PART_3" = some 1 :=
  ⟨((C10_fixed_resource_grant exJsNumber exCfg exStCompleted "T1" .unreachable exRowCompleted
      uniqKeys_nil (by decide)).1 rfl).1,
   ((C10_fixed_resource_grant exJsNumber exCfg exStCompleted "T1" .unreachable exRowCompleted
      uniqKeys_nil (by decide)).1 rfl).2.2.2⟩

end Attaqwa
